import Mathlib

/-!
Verification development for the `whatsapp-scraper` repository.

The Python sources are shallowly embedded as executable Lean definitions:

* `src/extractors/whatsapp_parser.py` — identifier validation, SHA-256
  digest derivation, deterministic field synthesis, batch assembly;
* `src/outputs/exporters.py` — the per-format encoders and the format
  dispatcher, with filesystem actions made explicit as an effect list;
* `src/runner.py` — the output-format selection fragment of `main`.

Python's wall clock (`datetime.now(timezone.utc)`) is passed in as an
explicit reference-time parameter (an `Int` of microseconds since the Unix
epoch, UTC), and the per-failure `logger.warning` calls of
`build_profiles` are returned as an explicit diagnostics list.
-/

set_option maxRecDepth 200000

namespace WhatsAppScraper

/-! ## Ground string helpers -/

/-- Python slice `s[a:b]` on code points (`a ≤ b`). -/
def strSlice (s : String) (a b : Nat) : String :=
  String.mk ((s.data.drop a).take (b - a))

/-- Python `s[:n]`. -/
def strTake (s : String) (n : Nat) : String :=
  String.mk (s.data.take n)

/-- Value of one hexadecimal character.  Callers only pass characters of a
`hexdigest`, which are `0-9a-f`; other characters (on which Python's
`int(_, 16)` would raise) are given value 0. -/
def hexDigitVal (c : Char) : Nat :=
  if '0' ≤ c ∧ c ≤ '9' then c.toNat - 48
  else if 'a' ≤ c ∧ c ≤ 'f' then c.toNat - 87
  else if 'A' ≤ c ∧ c ≤ 'F' then c.toNat - 55
  else 0

/-- Python `int(s, 16)` for a hex string. -/
def hexVal (s : String) : Nat :=
  s.data.foldl (fun a c => a * 16 + hexDigitVal c) 0

/-- ASCII lower-casing of one character, Python `str.lower` restricted to
ASCII (all format names in the repository are ASCII). -/
def charLower (c : Char) : Char :=
  if 'A' ≤ c ∧ c ≤ 'Z' then Char.ofNat (c.toNat + 32) else c

/-- Python `str.lower` (ASCII fragment). -/
def pyLower (s : String) : String :=
  String.mk (s.data.map charLower)

/-- ASCII whitespace predicate used by Python `str.strip` on the inputs of
this repository (Python also strips further Unicode whitespace; every
identifier in the spec and claims is ASCII). -/
def isStripChar (c : Char) : Bool :=
  c = ' ' ∨ c = '\t' ∨ c = '\n' ∨ c = '\r' ∨ c = '\x0b' ∨ c = '\x0c'

/-- Python `str.strip()`. -/
def pyStrip (s : String) : String :=
  String.mk (((s.data.dropWhile isStripChar).reverse.dropWhile isStripChar).reverse)

/-- Python `str.rstrip('/')`: drop every trailing `'/'`. -/
def rstripSlash (s : String) : String :=
  String.mk ((s.data.reverse.dropWhile (· = '/')).reverse)

/-- Join a list of strings with a separator (Python `sep.join`). -/
def joinSep (sep : String) : List String → String
  | [] => ""
  | x :: xs => xs.foldl (fun a b => a ++ sep ++ b) x

/-- Zero-padded decimal rendering of a natural number, width `w`
(Python `%0*d` as used by `datetime.isoformat`). -/
def padNat (w n : Nat) : String :=
  let d := toString n
  String.mk (List.replicate (w - d.length) '0') ++ d

/-! ## SHA-256 (embedding of `hashlib.sha256(...).hexdigest()`)

Pure `Nat` arithmetic with explicit `% 2^32`; bytes are `Nat < 256`. -/

/-- 2^32. -/
def m32 : Nat := 4294967296

/-- Right-rotation of a 32-bit word by `n` (0 < n < 32). -/
def rotr (n x : Nat) : Nat :=
  ((x >>> n) ||| (x <<< (32 - n))) % m32

def sigma0 (x : Nat) : Nat := rotr 7 x ^^^ rotr 18 x ^^^ (x >>> 3)
def sigma1 (x : Nat) : Nat := rotr 17 x ^^^ rotr 19 x ^^^ (x >>> 10)
def bigSigma0 (x : Nat) : Nat := rotr 2 x ^^^ rotr 13 x ^^^ rotr 22 x
def bigSigma1 (x : Nat) : Nat := rotr 6 x ^^^ rotr 11 x ^^^ rotr 25 x
def chFn (x y z : Nat) : Nat := (x &&& y) ^^^ ((x ^^^ 4294967295) &&& z)
def majFn (x y z : Nat) : Nat := (x &&& y) ^^^ (x &&& z) ^^^ (y &&& z)

/-- The 64 SHA-256 round constants (FIPS 180-4 §4.2.2, in decimal). -/
def sha256K : List Nat :=
  [1116352408, 1899447441, 3049323471, 3921009573, 961987163, 1508970993,
   2453635748, 2870763221, 3624381080, 310598401, 607225278, 1426881987,
   1925078388, 2162078206, 2614888103, 3248222580, 3835390401, 4022224774,
   264347078, 604807628, 770255983, 1249150122, 1555081692, 1996064986,
   2554220882, 2821834349, 2952996808, 3210313671, 3336571891, 3584528711,
   113926993, 338241895, 666307205, 773529912, 1294757372, 1396182291,
   1695183700, 1986661051, 2177026350, 2456956037, 2730485921, 2820302411,
   3259730800, 3345764771, 3516065817, 3600352804, 4094571909, 275423344,
   430227734, 506948616, 659060556, 883997877, 958139571, 1322822218,
   1537002063, 1747873779, 1955562222, 2024104815, 2227730452, 2361852424,
   2428436474, 2756734187, 3204031479, 3329325298]

/-- The initial SHA-256 state (FIPS 180-4 §5.3.3, in decimal). -/
def sha256H0 : List Nat :=
  [1779033703, 3144134277, 1013904242, 2773480762,
   1359893119, 2600822924, 528734635, 1541459225]

/-- Big-endian bytes of `n`, 8 bytes (the length field of the padding). -/
def be8 (n : Nat) : List Nat :=
  (List.range 8).map (fun i => (n >>> (8 * (7 - i))) % 256)

/-- SHA-256 message padding of a byte list. -/
def sha256Pad (msg : List Nat) : List Nat :=
  let L := msg.length
  let z := (119 - L % 64) % 64
  msg ++ [0x80] ++ List.replicate z 0 ++ be8 (8 * L)

/-- Group bytes into big-endian 32-bit words; fuel-driven so the kernel can
evaluate it. -/
def toWordsGo : Nat → List Nat → List Nat
  | 0, _ => []
  | _ + 1, [] => []
  | fuel + 1, bytes =>
      (bytes.getD 0 0 * 16777216 + bytes.getD 1 0 * 65536 +
        bytes.getD 2 0 * 256 + bytes.getD 3 0) :: toWordsGo fuel (bytes.drop 4)

def toWords (bytes : List Nat) : List Nat := toWordsGo bytes.length bytes

/-- Split a byte list into 64-byte blocks (fuel-driven). -/
def blocksGo : Nat → List Nat → List (List Nat)
  | 0, _ => []
  | _ + 1, [] => []
  | fuel + 1, l => l.take 64 :: blocksGo fuel (l.drop 64)

def sha256Blocks (l : List Nat) : List (List Nat) := blocksGo l.length l

/-- Next word of the message schedule given the words so far. -/
def nextW (w : List Nat) : Nat :=
  let n := w.length
  (sigma1 (w.getD (n - 2) 0) + w.getD (n - 7) 0 +
    sigma0 (w.getD (n - 15) 0) + w.getD (n - 16) 0) % m32

/-- Extend the 16-word schedule by `k` more words. -/
def extendW : Nat → List Nat → List Nat
  | 0, w => w
  | k + 1, w => extendW k (w ++ [nextW w])

/-- One compression round; the state is the 8-word list `[a,…,h]`. -/
def sha256Round (st : List Nat) (kw : Nat × Nat) : List Nat :=
  match st with
  | [a, b, c, d, e, f, g, h] =>
      let t1 := (h + bigSigma1 e + chFn e f g + kw.1 + kw.2) % m32
      let t2 := (bigSigma0 a + majFn a b c) % m32
      [(t1 + t2) % m32, a, b, c, (d + t1) % m32, e, f, g]
  | _ => st

/-- Compress one 16-word block into the running hash state. -/
def sha256Compress (hs : List Nat) (block : List Nat) : List Nat :=
  let w := extendW 48 block
  let st := (sha256K.zip w).foldl sha256Round hs
  List.zipWith (fun x y => (x + y) % m32) hs st

/-- SHA-256 of a byte list, as the list of 8 state words. -/
def sha256Words (msg : List Nat) : List Nat :=
  ((sha256Blocks (sha256Pad msg)).map toWords).foldl sha256Compress sha256H0

/-- Lowercase hex character of a nibble. -/
def hexChar (n : Nat) : Char :=
  if n < 10 then Char.ofNat (48 + n) else Char.ofNat (87 + n)

/-- Eight lowercase hex characters of one 32-bit word. -/
def wordHex (w : Nat) : List Char :=
  (List.range 8).map (fun i => hexChar ((w >>> (4 * (7 - i))) % 16))

/-- UTF-8 encoding of one code point. -/
def utf8Char (n : Nat) : List Nat :=
  if n < 128 then [n]
  else if n < 2048 then [192 + n / 64, 128 + n % 64]
  else if n < 65536 then [224 + n / 4096, 128 + n / 64 % 64, 128 + n % 64]
  else [240 + n / 262144, 128 + n / 4096 % 64, 128 + n / 64 % 64, 128 + n % 64]

/-- Python `s.encode("utf-8")` as a byte list. -/
def utf8Bytes (s : String) : List Nat :=
  s.data.foldr (fun c acc => utf8Char c.toNat ++ acc) []

/-- Embedding of `_hash_number`:
`hashlib.sha256(number.encode("utf-8")).hexdigest()`. -/
def hashNumber (number : String) : String :=
  String.mk ((sha256Words (utf8Bytes number)).foldr (fun w acc => wordHex w ++ acc) [])

/-! ## Time model

A timezone-aware UTC `datetime` is an `Int` of microseconds since the Unix
epoch.  `Int.ediv`/`Int.emod` (floor division / nonnegative remainder for
the positive divisors used here) match the calendar decomposition of
Python's `datetime` fields, which are nonnegative also before 1970. -/

/-- `dt.replace(microsecond=0)`: zero the microsecond field. -/
def truncMicro (t : Int) : Int := t - Int.emod t 1000000

/-- Civil date from a day count relative to 1970-01-01 (proleptic Gregorian
calendar, as `datetime.fromtimestamp` uses): `(year, month, day)`. -/
def civilFromDays (z0 : Int) : Int × Nat × Nat :=
  let z := z0 + 719468
  let era := Int.ediv z 146097
  let doe := (z - era * 146097).toNat
  let yoe := (doe - doe / 1460 + doe / 36524 - doe / 146096) / 365
  let doy := doe - (365 * yoe + yoe / 4 - yoe / 100)
  let mp := (5 * doy + 2) / 153
  let d := doy - (153 * mp + 2) / 5 + 1
  let m := if mp < 10 then mp + 3 else mp - 9
  (era * 400 + yoe + (if m ≤ 2 then 1 else 0), m, d)

/-- `dt.isoformat().replace("+00:00", "Z")` for an aware UTC datetime.
`isoformat` renders `YYYY-MM-DDTHH:MM:SS[.ffffff]+00:00`; the offset
`+00:00` is the only occurrence of that substring (all other characters
are digits, `-`, `:`, `.` or `T`), so the `replace` is exactly the final
`Z`.  Python years are 1..9999, rendered four digits. -/
def isoZ (t : Int) : String :=
  let secs := Int.ediv t 1000000
  let micro := (Int.emod t 1000000).toNat
  let days := Int.ediv secs 86400
  let sod := (Int.emod secs 86400).toNat
  let ymd := civilFromDays days
  padNat 4 ymd.1.toNat ++ "-" ++ padNat 2 ymd.2.1 ++ "-" ++ padNat 2 ymd.2.2 ++
    "T" ++ padNat 2 (sod / 3600) ++ ":" ++ padNat 2 (sod % 3600 / 60) ++ ":" ++
    padNat 2 (sod % 60) ++
    (if micro = 0 then "" else "." ++ padNat 6 micro) ++ "Z"

/-! ## Embedding of `src/extractors/whatsapp_parser.py` -/

/-- The four distinct failure kinds of `_validate_number`, one per
`raise ValueError(...)` site, in source order. -/
inductive ValidationFailure where
  | emptyNumber
  | nonDigit
  | tooShort
  | tooLong
deriving DecidableEq, Repr

/-- Embedding of `_validate_number`.  `re.fullmatch(r"\d+", cleaned)`
demands one or more digits; the first branch has already excluded the
empty string, so on the second branch it is exactly the all-digits check
(`\d` also matches non-ASCII Unicode decimal digits in Python; every
identifier in the spec and claims is ASCII). -/
def validateNumber (raw : String) : Except ValidationFailure String :=
  let cleaned := pyStrip raw
  if cleaned.data = [] then .error .emptyNumber
  else if cleaned.data.all Char.isDigit = false then .error .nonDigit
  else if cleaned.data.length < 6 then .error .tooShort
  else if cleaned.data.length > 20 then .error .tooLong
  else .ok cleaned

/-- The `WhatsAppProfile` dataclass (field names as in the source; its
`to_dict` is the identity on this data). -/
structure WhatsAppProfile where
  number : String
  is_registered : Bool
  profile_picture : String
  about : String
  about_last_updated : String
  account_type : String
deriving DecidableEq, Repr

/-- The module-level `ABOUT_TEMPLATES` list, in source order. -/
def ABOUT_TEMPLATES : List String :=
  ["Living my best life!",
   "Available on WhatsApp only.",
   "Work hard, dream big.",
   "Stay positive, work hard, make it happen.",
   "✨ Hustle in silence. ✨",
   "Just another human on the internet.",
   "Business inquiries only.",
   "Blessed and grateful.",
   ]

/-- Embedding of `_deterministic_datetime` with the wall clock
(`datetime.now(timezone.utc)`) passed in as `now`:
`now - timedelta(days, hours, minutes)` then `replace(microsecond=0)`. -/
def deterministicDatetime (hashHex : String) (now : Int) : Int :=
  let daysAgo := hexVal (strSlice hashHex 0 4) % 365
  let hours := hexVal (strSlice hashHex 4 6) % 24
  let minutes := hexVal (strSlice hashHex 6 8) % 60
  truncMicro (now - ((daysAgo * 86400 + hours * 3600 + minutes * 60 : Nat) : Int) * 1000000)

/-- Embedding of `_deterministic_choice` (`templates[idx]`; the index is
`… % templates.length`, so the lookup is in range whenever the list is
nonempty, and `ABOUT_TEMPLATES` has 8 entries). -/
def deterministicChoice (hashHex : String) (templates : List String) : String :=
  templates.getD (hexVal (strSlice hashHex 8 12) % templates.length) ""

/-- The field-synthesis body of `_build_profile` after validation and
hashing: every field from the validated number, its digest `h`, the
`media_base_url` and the reference time. -/
def synthesize (numberValidated h mediaBaseUrl : String) (now : Int) : WhatsAppProfile :=
  let is_registered : Bool := hexVal (strSlice h 12 14) % 3 != 0
  let account_type := if hexVal (strSlice h 14 16) % 5 = 0 then "business" else "personal"
  let about := if is_registered then deterministicChoice h ABOUT_TEMPLATES else ""
  let about_last_updated := isoZ (deterministicDatetime h now)
  let profile_picture :=
    if is_registered then rstripSlash mediaBaseUrl ++ "/" ++ strTake h 16 ++ ".jpg" else ""
  { number := numberValidated
    is_registered := is_registered
    profile_picture := profile_picture
    about := about
    about_last_updated := about_last_updated
    account_type := account_type }

/-- Embedding of `_build_profile`: validate, hash, synthesize.  The only
`raise` reachable from it is inside `_validate_number`. -/
def buildProfile (number mediaBaseUrl : String) (now : Int) :
    Except ValidationFailure WhatsAppProfile := do
  let numberValidated ← validateNumber number
  let h := hashNumber numberValidated
  return synthesize numberValidated h mediaBaseUrl now

/-- Embedding of `build_profiles`.  The `except` branch's
`logger.warning("Skipping number '%s': %s", raw, exc)` is returned as an
explicit diagnostics list of `(raw input, failure kind)` pairs, one per
skipped number, in input order. -/
def buildProfiles (numbers : List String) (mediaBaseUrl : String) (now : Int) :
    List WhatsAppProfile × List (String × ValidationFailure) :=
  numbers.foldl
    (fun acc raw =>
      match buildProfile raw mediaBaseUrl now with
      | .ok profile => (acc.1 ++ [profile], acc.2)
      | .error exc => (acc.1, acc.2 ++ [(raw, exc)]))
    ([], [])

/-! ## Embedding of `src/outputs/exporters.py`

A record (Python `Dict`) is an insertion-ordered association list; values
are modeled as the strings the encoders coerce them to (`str(value)` /
csv's string rendering).  Filesystem actions are returned as an explicit
effect list: `_ensure_parent_dir` (whose `mkdir` is conditional on
filesystem state, so only the request is recorded) and the final write. -/

def Rec : Type := List (String × String)

/-- The inner loop of `_get_fieldnames`: append each key of one record
that has not been seen yet. -/
def addKeys (fns : List String) (record : Rec) : List String :=
  record.foldl (fun fns kv => if kv.1 ∈ fns then fns else fns ++ [kv.1]) fns

/-- Embedding of `_get_fieldnames`: first-seen-wins union of the key
sets of all records. -/
def getFieldnames (records : List Rec) : List String :=
  records.foldl addKeys []

/-- Python `dict.get key default` on a record. -/
def recGet (record : Rec) (key dflt : String) : String :=
  match record.findSome? (fun kv => if kv.1 = key then some kv.2 else none) with
  | some v => v
  | none => dflt

/-- The keys of a record, in insertion order. -/
def recKeys (record : Rec) : List String := record.map (·.1)

/-- csv `QUOTE_MINIMAL` quoting of one field. -/
def csvQuote (s : String) : String :=
  if s.data.any (fun c => c = ',' ∨ c = '"' ∨ c = '\n' ∨ c = '\r') then
    "\"" ++ String.mk (s.data.foldr (fun c acc => if c = '"' then '"' :: '"' :: acc else c :: acc) []) ++ "\""
  else s

/-- Embedding of the text `export_csv` writes: header row from the union
field order, then one row per record; a field absent from a record is
`rowdict.get(key, restval)` with `restval = None`, written as the empty
cell; csv's default line terminator is `"\r\n"`. -/
def exportCsvContent (records : List Rec) : String :=
  let fieldnames := if records.isEmpty then [] else getFieldnames records
  let header := joinSep "," (fieldnames.map csvQuote) ++ "\r\n"
  let rows := records.map
    (fun record => joinSep "," (fieldnames.map (fun f => csvQuote (recGet record f ""))) ++ "\r\n")
  rows.foldl (· ++ ·) header

/-- `xml.etree.ElementTree` escaping of text content (`&`, `<`, `>`). -/
def xmlEscape (s : String) : String :=
  s.data.foldl
    (fun acc c =>
      acc ++ (if c = '&' then "&amp;" else if c = '<' then "&lt;"
              else if c = '>' then "&gt;" else String.mk [c]))
    ""

/-- One child element `<key>value</key>`; ElementTree writes an element
whose text is empty (or `None`) in the short form `<key />`. -/
def xmlField (key value : String) : String :=
  if value = "" then "<" ++ key ++ " />"
  else "<" ++ key ++ ">" ++ xmlEscape value ++ "</" ++ key ++ ">"

/-- One `<profile>` element of `export_xml`: children are exactly the
record's own `record.items()`, in insertion order. -/
def xmlItem (record : Rec) : String :=
  if record.isEmpty then "<profile />"
  else "<profile>" ++ (record.map (fun kv => xmlField kv.1 kv.2)).foldl (· ++ ·) "" ++ "</profile>"

/-- Embedding of the bytes `export_xml` writes (UTF-8 with XML
declaration, as `tree.write(..., encoding="utf-8", xml_declaration=True)`
emits them). -/
def exportXmlContent (records : List Rec) : String :=
  "<?xml version='1.0' encoding='utf-8'?>\n" ++
    (if records.isEmpty then "<profiles />"
     else "<profiles>" ++ (records.map xmlItem).foldl (· ++ ·) "" ++ "</profiles>")

/-- `html.escape` with its default `quote=True`. -/
def htmlEscape (s : String) : String :=
  s.data.foldl
    (fun acc c =>
      acc ++ (if c = '&' then "&amp;" else if c = '<' then "&lt;"
              else if c = '>' then "&gt;" else if c = '"' then "&quot;"
              else if c = '\'' then "&#x27;" else String.mk [c]))
    ""

/-- The header list of `export_html`: the keys of the FIRST record only
(`headers = list(records[0].keys()) if records else []`). -/
def htmlHeaders (records : List Rec) : List String :=
  match records with
  | [] => []
  | record :: _ => recKeys record

/-- Embedding of the `lines` list built by `export_html`, line for line. -/
def exportHtmlLines (records : List Rec) : List String :=
  let headers := htmlHeaders records
  ["<!DOCTYPE html>",
   "<html lang='en'>",
   "<head>",
   "  <meta charset='UTF-8' />",
   "  <title>WhatsApp Profiles Export</title>",
   "  <style>",
   "    table \x7b border-collapse: collapse; width: 100%; \x7d",
   "    th, td \x7b border: 1px solid #ddd; padding: 8px; font-family: Arial, sans-serif; font-size: 14px; \x7d",
   "    th \x7b background-color: #f5f5f5; text-align: left; \x7d",
   "    tr:nth-child(even) \x7b background-color: #fafafa; \x7d",
   "  </style>",
   "</head>",
   "<body>",
   "  <h1>WhatsApp Profiles Export</h1>",
   "  <table>",
   "    <thead>",
   "      <tr>"] ++
  headers.map (fun h => "        <th>" ++ htmlEscape h ++ "</th>") ++
  ["      </tr>",
   "    </thead>",
   "    <tbody>"] ++
  (records.map
    (fun record =>
      ["      <tr>"] ++
      headers.map (fun h => "        <td>" ++ htmlEscape (recGet record h "") ++ "</td>") ++
      ["      </tr>"])).foldl (· ++ ·) [] ++
  ["    </tbody>",
   "  </table>",
   "</body>",
   "</html>"]

/-- The text `export_html` writes: `"\n".join(lines)`. -/
def exportHtmlContent (records : List Rec) : String :=
  joinSep "\n" (exportHtmlLines records)

/-- `json.dump`-style escaping of a string (the default escapes `"`,
`\` and control characters; `ensure_ascii=False` leaves the rest). -/
def jsonEscape (s : String) : String :=
  s.data.foldl
    (fun acc c =>
      acc ++ (if c = '"' then "\\\"" else if c = '\\' then "\\\\"
              else if c = '\n' then "\\n" else if c = '\r' then "\\r"
              else if c = '\t' then "\\t"
              else if c.toNat < 32 then "\\u00" ++ String.mk [hexChar (c.toNat / 16), hexChar (c.toNat % 16)]
              else String.mk [c]))
    ""

/-- Embedding of the text `export_json` writes:
`json.dump(records, f, ensure_ascii=False, indent=2)` for records of
string values. -/
def exportJsonContent (records : List Rec) : String :=
  if records.isEmpty then "[]"
  else
    "[\n" ++
      joinSep ",\n" (records.map
        (fun record =>
          if record.isEmpty then "  \x7b\x7d"
          else
            "  \x7b\n" ++
              joinSep ",\n" (record.map
                (fun kv => "    \"" ++ jsonEscape kv.1 ++ "\": \"" ++ jsonEscape kv.2 ++ "\"")) ++
              "\n  \x7d")) ++
      "\n]"

/-- Embedding of the cell grid `export_excel` appends to the worksheet:
nothing when the union field order is empty, else a header row then
`record.get(field, "")` per field per record. -/
def exportExcelRows (records : List Rec) : List (List String) :=
  let fieldnames := if records.isEmpty then [] else getFieldnames records
  if fieldnames.isEmpty then []
  else fieldnames :: records.map (fun record => fieldnames.map (fun f => recGet record f ""))

/-- One recorded filesystem action of the export layer. -/
inductive FsEffect where
  | ensureParentDir (path : String)
  | writeText (path content : String)
  | writeXlsx (path : String) (rows : List (List String))
deriving DecidableEq, Repr

/-- `pathlib.Path(p).name`: the last nonempty `/`-separated component
(trailing separators are dropped by pathlib's normalization; drive/anchor
handling is not modeled — no claim uses anchored paths). -/
def pathName (p : String) : String :=
  (p.data.foldl
    (fun acc c => if c = '/' then ([], acc.2 ++ [acc.1]) else (acc.1 ++ [c], acc.2))
    (([] : List Char), ([] : List (List Char)))
  |> fun st => (st.2 ++ [st.1]).foldl (fun last comp => if comp.isEmpty then last else comp) [])
  |> String.mk

/-- `pathlib.Path(p).suffix`: from the last `.` of the name, empty when
the name starts with the only `.` or ends in `.`. -/
def pathSuffix (p : String) : String :=
  let name := (pathName p).data
  let i := (List.range name.length).foldl (fun acc j => if name.getD j ' ' = '.' then j else acc) 0
  if 0 < i ∧ i < name.length - 1 then String.mk (name.drop i) else ""

/-- `pathlib.Path(p).with_suffix(s)` for a valid new suffix `s`: the old
suffix (if any) of the final component is replaced by `s`.  Faithful for
paths whose final component is nonempty and not followed by a separator,
which covers every path the claims use. -/
def withSuffix (p s : String) : String :=
  String.mk (p.data.take (p.data.length - (pathSuffix p).data.length)) ++ s

/-- The closed set `SUPPORTED_FORMATS` (a Python `set`; only membership
is used, order immaterial). -/
def SUPPORTED_FORMATS : List String := ["json", "csv", "xml", "html", "excel"]

/-- The two `raise ValueError` sites of `export_profiles`: the
unsupported-format gate (message built from the original `fmt`) and the
unreachable trailing `else`. -/
inductive ExportError where
  | unsupportedFormat (fmt : String)
  | unexpectedFormat (fmt : String)
deriving DecidableEq, Repr

/-- Embedding of `export_profiles`: lowercase the format name, reject
names outside `SUPPORTED_FORMATS` before any filesystem action, then
dispatch.  Each encoder's actions appear in source order
(`export_html` calls `_ensure_parent_dir` twice); for `excel` the
destination is rewritten to `.xlsx` first, and the spreadsheet library is
assumed importable (its absence raises before any filesystem action and
no claim concerns it). -/
def exportProfiles (records : List Rec) (outputPath fmt : String) :
    Except ExportError (List FsEffect) :=
  let fmtNormalized := pyLower fmt
  if fmtNormalized ∉ SUPPORTED_FORMATS then
    .error (.unsupportedFormat fmt)
  else if fmtNormalized = "json" then
    .ok [.ensureParentDir outputPath, .writeText outputPath (exportJsonContent records)]
  else if fmtNormalized = "csv" then
    .ok [.ensureParentDir outputPath, .writeText outputPath (exportCsvContent records)]
  else if fmtNormalized = "xml" then
    .ok [.ensureParentDir outputPath, .writeText outputPath (exportXmlContent records)]
  else if fmtNormalized = "html" then
    .ok [.ensureParentDir outputPath, .ensureParentDir outputPath,
         .writeText outputPath (exportHtmlContent records)]
  else if fmtNormalized = "excel" then
    let path := if pyLower (pathSuffix outputPath) ≠ ".xlsx" then withSuffix outputPath ".xlsx"
                else outputPath
    .ok [.ensureParentDir path, .writeXlsx path (exportExcelRows records)]
  else
    .error (.unexpectedFormat fmtNormalized)

/-! ## Embedding of the format-selection fragment of `src/runner.py` `main` -/

/-- `main`'s output-format determination: an explicit `-f` argument wins,
else the configured `default_output_format`; either way the name is
lowercased (`args.format.lower()` / `str(settings.get(...)).lower()`). -/
def runnerOutputFormat (argFormat : Option String) (settingsDefault : String) : String :=
  match argFormat with
  | some f => pyLower f
  | none => pyLower settingsDefault

/-- `main`'s support gate: `if output_format not in SUPPORTED_FORMATS:
return 1`, else the pipeline proceeds with that format. -/
def runnerFormatGate (argFormat : Option String) (settingsDefault : String) :
    Except Unit String :=
  let outputFormat := runnerOutputFormat argFormat settingsDefault
  if outputFormat ∉ SUPPORTED_FORMATS then .error () else .ok outputFormat

/-! ## Supporting lemmas -/

theorem mem_addKeys (record : Rec) (fns : List String) (k : String) :
    k ∈ addKeys fns record ↔ k ∈ fns ∨ k ∈ recKeys record := by
  induction record generalizing fns with
  | nil => simp [addKeys, recKeys]
  | cons kv record ih =>
      show k ∈ addKeys (if kv.1 ∈ fns then fns else fns ++ [kv.1]) record ↔ _
      by_cases hmem : kv.1 ∈ fns
      · simp only [hmem, if_true, ih, recKeys, List.map_cons, List.mem_cons]
        constructor
        · rintro (h | h)
          · exact Or.inl h
          · exact Or.inr (Or.inr h)
        · rintro (h | h | h)
          · exact Or.inl h
          · exact Or.inl (h ▸ hmem)
          · exact Or.inr h
      · simp only [hmem, if_false, ih, recKeys, List.map_cons, List.mem_cons,
          List.mem_append, List.mem_singleton]
        tauto

theorem nodup_addKeys (record : Rec) (fns : List String) (h : fns.Nodup) :
    (addKeys fns record).Nodup := by
  induction record generalizing fns with
  | nil => exact h
  | cons kv record ih =>
      show (addKeys (if kv.1 ∈ fns then fns else fns ++ [kv.1]) record).Nodup
      by_cases hmem : kv.1 ∈ fns
      · simpa [hmem] using ih fns h
      · refine ih _ ?_
        simp [hmem, List.nodup_append, h]

theorem mem_getFieldnames (records : List Rec) (k : String) :
    k ∈ getFieldnames records ↔ ∃ r ∈ records, k ∈ recKeys r := by
  suffices H : ∀ (recs : List Rec) (acc : List String),
      k ∈ recs.foldl addKeys acc ↔ k ∈ acc ∨ ∃ r ∈ recs, k ∈ recKeys r by
    simpa [getFieldnames] using H records []
  intro recs
  induction recs with
  | nil => simp
  | cons r recs ih =>
      intro acc
      simp only [List.foldl_cons, ih, mem_addKeys, List.mem_cons]
      constructor
      · rintro (⟨h | h⟩ | ⟨r', hr', hk⟩)
        · exact Or.inl h
        · exact Or.inr ⟨r, Or.inl rfl, h⟩
        · exact Or.inr ⟨r', Or.inr hr', hk⟩
      · rintro (h | ⟨r', hr' | hr', hk⟩)
        · exact Or.inl (Or.inl h)
        · exact Or.inl (Or.inr (hr' ▸ hk))
        · exact Or.inr ⟨r', hr', hk⟩

theorem nodup_getFieldnames (records : List Rec) : (getFieldnames records).Nodup := by
  suffices H : ∀ (recs : List Rec) (acc : List String),
      acc.Nodup → (recs.foldl addKeys acc).Nodup from H records [] List.nodup_nil
  intro recs
  induction recs with
  | nil => exact fun acc h => h
  | cons r recs ih => exact fun acc h => ih _ (nodup_addKeys r acc h)

/-! ## Claim C1 -/

/-- First record of the two-record example batch: no `about` field. -/
def recA : Rec := [("number", "1"), ("isRegistered", "true")]

/-- Second record of the example batch: it alone carries `about`. -/
def recB : Rec := [("number", "2"), ("isRegistered", "false"), ("about", "hey")]

/-- C1, counterexample.  For the batch `[recA, recB]` where only `recB`
has the field `about`, the XML exporter serializes the first record with
no `about` element at all (its children are exactly the record's own two
fields), and the HTML exporter emits no `about` header cell anywhere, so
the claimed common union ordering with an empty `about` for the first
record does not hold for the XML and HTML outputs. -/
theorem C1_union_ordering_counterexample :
    xmlItem recA = "<profile><number>1</number><isRegistered>true</isRegistered></profile>"
    ∧ (exportHtmlLines [recA, recB]).count "        <th>about</th>" = 0
    ∧ (exportHtmlLines [recA, recB]).count "        <td>hey</td>" = 0 := by
  refine ⟨by decide, by decide, by decide⟩

/-- C1, amended.  Only the tabular encoders share the first-seen union
field ordering of `_get_fieldnames` (each field name recorded the first
time it is seen across the whole sequence, without duplicates): the CSV
output of the example batch has an `about` column for both rows, empty
for the first.  The XML exporter instead emits exactly each record's own
fields, so only the second profile element has an `about` child, and the
HTML exporter draws its headers from the first record alone, so no
`about` column appears for any row. -/
theorem C1_union_ordering_amended :
    (∀ (records : List Rec) (k : String),
        k ∈ getFieldnames records ↔ ∃ r ∈ records, k ∈ recKeys r)
    ∧ (∀ records : List Rec, (getFieldnames records).Nodup)
    ∧ exportCsvContent [recA, recB] = "number,isRegistered,about\r\n1,true,\r\n2,false,hey\r\n"
    ∧ exportXmlContent [recA, recB] =
        "<?xml version='1.0' encoding='utf-8'?>\n<profiles><profile><number>1</number><isRegistered>true</isRegistered></profile><profile><number>2</number><isRegistered>false</isRegistered><about>hey</about></profile></profiles>"
    ∧ (∀ (r : Rec) (rs : List Rec), htmlHeaders (r :: rs) = recKeys r)
    ∧ (exportHtmlLines [recA, recB]).count "        <th>about</th>" = 0 := by
  refine ⟨fun records k => mem_getFieldnames records k, nodup_getFieldnames,
    by decide, by decide, fun r rs => rfl, by decide⟩

/-! ## Claim C2 -/

/-- C2.  Profile synthesis is deterministic: two runs on the same
identifier, the same `media_base_url` and the same reference time agree
on the digest and produce identical Profiles, so every Profile field is a
function of that triple alone (the wall clock is the only ambient input
of `_build_profile`, and it enters solely through the reference time). -/
theorem C2_determinism (n₁ n₂ url₁ url₂ : String) (t₁ t₂ : Int)
    (hn : n₁ = n₂) (hurl : url₁ = url₂) (ht : t₁ = t₂) :
    hashNumber n₁ = hashNumber n₂ ∧ buildProfile n₁ url₁ t₁ = buildProfile n₂ url₂ t₂ := by
  subst hn hurl ht
  exact ⟨rfl, rfl⟩

/-- C2, witness: two synthesis runs on the identifier `"1234567890"`. -/
theorem C2_determinism_witness :
    hashNumber "1234567890" = hashNumber "1234567890"
    ∧ buildProfile "1234567890" "https://cdn.example.com/whatsapp/avatars" 1700000000000000
        = buildProfile "1234567890" "https://cdn.example.com/whatsapp/avatars" 1700000000000000 :=
  C2_determinism "1234567890" "1234567890" "https://cdn.example.com/whatsapp/avatars"
    "https://cdn.example.com/whatsapp/avatars" 1700000000000000 1700000000000000 rfl rfl rfl

/-! ## Claim C3 -/

/-- C3.  Every Profile that synthesis produces (from any identifier that
validates, any `media_base_url`, any reference time) satisfies the
unregistered invariant: `is_registered = false` forces both `about` and
`profile_picture` to be the empty string. -/
theorem C3_unregistered_invariant (raw url : String) (now : Int) (p : WhatsAppProfile)
    (hp : buildProfile raw url now = .ok p) (hreg : p.is_registered = false) :
    p.about = "" ∧ p.profile_picture = "" := by
  cases hv : validateNumber raw with
  | error e => simp [buildProfile, hv] at hp
  | ok v =>
      simp only [buildProfile, hv, bind, Except.bind, pure, Except.pure,
        Except.ok.injEq] at hp
      subst hp
      simp only [synthesize] at hreg ⊢
      rw [hreg]
      exact ⟨rfl, rfl⟩

/-- Decidable equality of `Except` results, for evaluating the embedding
at concrete inputs. -/
instance exceptDecEq {ε α : Type} [DecidableEq ε] [DecidableEq α] :
    DecidableEq (Except ε α)
  | .ok a, .ok b =>
      if h : a = b then .isTrue (h ▸ rfl)
      else .isFalse (by intro he; cases he; exact h rfl)
  | .ok _, .error _ => .isFalse (by intro h; cases h)
  | .error _, .ok _ => .isFalse (by intro h; cases h)
  | .error a, .error b =>
      if h : a = b then .isTrue (h ▸ rfl)
      else .isFalse (by intro he; cases he; exact h rfl)

/-- The Profile synthesized for `"100001"`, an identifier whose digest
makes it unregistered. -/
def c3Profile : WhatsAppProfile :=
  match buildProfile "100001" "https://cdn.example.com/whatsapp/avatars" 1700000000000000 with
  | .ok p => p
  | .error _ => ⟨"", false, "", "", "", ""⟩

/-- C3, witness: the identifier `"100001"` synthesizes an unregistered
Profile, and its `about` and `profile_picture` are both empty. -/
theorem C3_unregistered_invariant_witness :
    c3Profile.about = "" ∧ c3Profile.profile_picture = "" :=
  C3_unregistered_invariant "100001" "https://cdn.example.com/whatsapp/avatars"
    1700000000000000 c3Profile (by decide) (by decide)

/-! ## Claim C4 -/

/-- C4.  Validation trims first and applies the four rules in order, each
with its own failure kind: the empty and the whitespace-only string fail
with the empty kind; `"12a45"` (length 5, one non-digit) fails with the
non-digit kind, showing the digit rule fires before the length rules;
all-digit inputs of trimmed length 5 / 21 are rejected as too short / too
long, while lengths 6 and 20 are accepted (returning the trimmed string);
and the four failure kinds are pairwise distinct. -/
theorem C4_validation_rules :
    validateNumber "" = .error .emptyNumber
    ∧ validateNumber "   " = .error .emptyNumber
    ∧ validateNumber "12a45" = .error .nonDigit
    ∧ (∀ raw : String, (pyStrip raw).data.all Char.isDigit = true →
        (pyStrip raw).data.length = 5 → validateNumber raw = .error .tooShort)
    ∧ (∀ raw : String, (pyStrip raw).data.all Char.isDigit = true →
        (pyStrip raw).data.length = 21 → validateNumber raw = .error .tooLong)
    ∧ (∀ raw : String, (pyStrip raw).data.all Char.isDigit = true →
        (pyStrip raw).data.length = 6 ∨ (pyStrip raw).data.length = 20 →
          validateNumber raw = .ok (pyStrip raw))
    ∧ ([ValidationFailure.emptyNumber, .nonDigit, .tooShort, .tooLong].dedup.length = 4) := by
  refine ⟨by decide, by decide, by decide, ?_, ?_, ?_, by decide⟩
  · intro raw hdig hlen
    unfold validateNumber
    rw [if_neg (by intro h0; rw [h0] at hlen; simp at hlen),
      if_neg (by simp [hdig]), if_pos (by omega)]
  · intro raw hdig hlen
    unfold validateNumber
    rw [if_neg (by intro h0; rw [h0] at hlen; simp at hlen),
      if_neg (by simp [hdig]), if_neg (by omega), if_pos (by omega)]
  · intro raw hdig hlen
    unfold validateNumber
    rw [if_neg (by intro h0; rcases hlen with h | h <;> rw [h0] at h <;> simp at h),
      if_neg (by simp [hdig]), if_neg (by omega), if_neg (by omega)]

/-- C4, witness: `"12345"` (all digits, trimmed length 5) is rejected as
too short, ` 123456 ` (trimmed length 6) is accepted as `"123456"`. -/
theorem C4_validation_rules_witness :
    validateNumber "12345" = .error .tooShort
    ∧ validateNumber " 123456 " = .ok (pyStrip " 123456 ") :=
  ⟨C4_validation_rules.2.2.2.1 "12345" (by decide) (by decide),
   C4_validation_rules.2.2.2.2.2.1 " 123456 " (by decide) (Or.inl (by decide))⟩

/-! ## Claim C5 -/

/-- C5.  Given any identifier with hex digest `h`, any `media_base_url`
and any reference time, `_build_profile` is validation followed by field
synthesis from `h`, and the synthesized fields equal the reference
arithmetic of the spec: registration from `h[12:14] mod 3`, account type
from `h[14:16] mod 5`, the about template indexed by `h[8:12]` modulo the
template-list length, the timestamp as the reference time minus the
digest-derived days/hours/minutes truncated to whole seconds in ISO-8601
with UTC designator, and the picture URL from the stripped base URL plus
the first 16 digest characters plus `".jpg"`. -/
theorem C5_field_arithmetic :
    (∀ (raw url : String) (now : Int),
        buildProfile raw url now
          = (validateNumber raw).map (fun v => synthesize v (hashNumber v) url now))
    ∧ (∀ (n h url : String) (now : Int),
        ((synthesize n h url now).is_registered = true ↔ hexVal (strSlice h 12 14) % 3 ≠ 0)
        ∧ (synthesize n h url now).account_type
            = (if hexVal (strSlice h 14 16) % 5 = 0 then "business" else "personal")
        ∧ ((synthesize n h url now).is_registered = true →
            (synthesize n h url now).about
              = ABOUT_TEMPLATES.getD (hexVal (strSlice h 8 12) % ABOUT_TEMPLATES.length) "")
        ∧ (synthesize n h url now).about_last_updated
            = isoZ (truncMicro (now -
                ((hexVal (strSlice h 0 4) % 365) * 86400 + (hexVal (strSlice h 4 6) % 24) * 3600
                  + (hexVal (strSlice h 6 8) % 60) * 60 : Nat) * 1000000))
        ∧ ((synthesize n h url now).is_registered = true →
            (synthesize n h url now).profile_picture
              = rstripSlash url ++ "/" ++ strTake h 16 ++ ".jpg")) := by
  constructor
  · intro raw url now
    cases hv : validateNumber raw with
    | error e => simp [buildProfile, hv, Except.map]
    | ok v =>
        simp [buildProfile, hv, Except.map, bind, Except.bind, pure, Except.pure]
  · intro n h url now
    refine ⟨?_, rfl, fun hr => ?_, rfl, fun hr => ?_⟩
    · simp [synthesize, bne_iff_ne]
    · simp only [synthesize] at hr ⊢
      rw [hr]
      rfl
    · simp only [synthesize] at hr ⊢
      rw [hr]
      rfl

/-- A sample 64-character digest whose `[12:14)` slice is `"cd"`
(205 mod 3 ≠ 0, so a profile synthesized from it is registered). -/
def c5Hex : String := "0123456789abcdef0123456789abcdef0123456789abcdef0123456789abcdef"

/-- C5, witness: at the digest `c5Hex` the synthesized profile is
registered, so its about text and picture URL equal the reference
arithmetic. -/
theorem C5_field_arithmetic_witness :
    (synthesize "123456" c5Hex "https://media.example.com/" 1700000000000000).about
        = ABOUT_TEMPLATES.getD (hexVal (strSlice c5Hex 8 12) % ABOUT_TEMPLATES.length) ""
    ∧ (synthesize "123456" c5Hex "https://media.example.com/" 1700000000000000).profile_picture
        = rstripSlash "https://media.example.com/" ++ "/" ++ strTake c5Hex 16 ++ ".jpg" :=
  ⟨(C5_field_arithmetic.2 "123456" c5Hex "https://media.example.com/" 1700000000000000).2.2.1
      (by decide),
   (C5_field_arithmetic.2 "123456" c5Hex "https://media.example.com/" 1700000000000000).2.2.2.2
      (by decide)⟩

/-! ## Claims C6 and C7: batch assembly -/

/-- Characterization of the accumulator loop of `build_profiles`: from any
starting accumulator, the profiles are those of the successful inputs in
order, and the diagnostics those of the failing inputs in order. -/
theorem buildProfiles_foldl (numbers : List String) (url : String) (now : Int)
    (acc : List WhatsAppProfile × List (String × ValidationFailure)) :
    numbers.foldl
      (fun acc raw =>
        match buildProfile raw url now with
        | .ok profile => (acc.1 ++ [profile], acc.2)
        | .error exc => (acc.1, acc.2 ++ [(raw, exc)]))
      acc
    = (acc.1 ++ numbers.filterMap (fun raw => (buildProfile raw url now).toOption),
       acc.2 ++ numbers.filterMap (fun raw =>
          match buildProfile raw url now with
          | .ok _ => none
          | .error e => some (raw, e))) := by
  induction numbers generalizing acc with
  | nil => simp
  | cons raw rest ih =>
      cases h : buildProfile raw url now with
      | ok p => simp [List.foldl_cons, h, ih, Except.toOption]
      | error e => simp [List.foldl_cons, h, ih, Except.toOption]

/-- A failing validation propagates unchanged through `_build_profile`. -/
theorem buildProfile_error (raw url : String) (now : Int) (e : ValidationFailure)
    (h : validateNumber raw = .error e) : buildProfile raw url now = .error e := by
  simp [buildProfile, h, bind, Except.bind]

/-- C6.  Batch assembly never aborts: its profile list is exactly the
successful synthesis of each valid identifier, in input order with
invalid entries skipped (no reordering, no deduplication), and when every
identifier fails validation the profile list is empty rather than an
error. -/
theorem C6_batch_skips_invalid :
    (∀ (numbers : List String) (url : String) (now : Int),
        (buildProfiles numbers url now).1
          = numbers.filterMap (fun raw => (buildProfile raw url now).toOption))
    ∧ (∀ (numbers : List String) (url : String) (now : Int),
        (∀ raw ∈ numbers, ∃ e, validateNumber raw = .error e) →
          (buildProfiles numbers url now).1 = []) := by
  have hchar : ∀ (numbers : List String) (url : String) (now : Int),
      (buildProfiles numbers url now).1
        = numbers.filterMap (fun raw => (buildProfile raw url now).toOption) := by
    intro numbers url now
    simp [buildProfiles, buildProfiles_foldl]
  refine ⟨hchar, fun numbers url now hall => ?_⟩
  rw [hchar]
  refine List.filterMap_eq_nil_iff.mpr fun raw hr => ?_
  obtain ⟨e, he⟩ := hall raw hr
  rw [buildProfile_error raw url now e he]
  rfl

/-- C7.  Batch assembly yields, besides the profiles, one diagnostic —
the raw input paired with its failure kind, as emitted by the
`logger.warning` call of the skip branch — per failed identifier, in
input order; on the inputs `["12345", "1234567890", "abc123"]` it
produces exactly one Profile, whose number is `"1234567890"`, and exactly
the two diagnostics for the other two inputs. -/
theorem C7_batch_diagnostics :
    (∀ (numbers : List String) (url : String) (now : Int),
        (buildProfiles numbers url now).2
          = numbers.filterMap (fun raw =>
              match validateNumber raw with
              | .ok _ => none
              | .error e => some (raw, e)))
    ∧ (∀ (url : String) (now : Int),
        (buildProfiles ["12345", "1234567890", "abc123"] url now).1.map
            (fun p => p.number) = ["1234567890"]
        ∧ (buildProfiles ["12345", "1234567890", "abc123"] url now).2
            = [("12345", .tooShort), ("abc123", .nonDigit)]) := by
  have hfun : ∀ (url : String) (now : Int) (raw : String),
      (match buildProfile raw url now with
       | .ok _ => none
       | .error e => some (raw, e))
      = (match validateNumber raw with
         | .ok (_ : String) => (none : Option (String × ValidationFailure))
         | .error e => some (raw, e)) := by
    intro url now raw
    cases hv : validateNumber raw with
    | error e => rw [buildProfile_error raw url now e hv]
    | ok v =>
        simp [buildProfile, hv, bind, Except.bind, pure, Except.pure]
  constructor
  · intro numbers url now
    simp only [buildProfiles, buildProfiles_foldl, List.nil_append]
    exact List.filterMap_congr fun raw _ => hfun url now raw
  · intro url now
    have h1 : validateNumber "12345" = .error .tooShort := by decide
    have h2 : validateNumber "1234567890" = .ok "1234567890" := by decide
    have h3 : validateNumber "abc123" = .error .nonDigit := by decide
    have b1 := buildProfile_error "12345" url now .tooShort h1
    have b3 := buildProfile_error "abc123" url now .nonDigit h3
    have b2 : buildProfile "1234567890" url now
        = .ok (synthesize "1234567890" (hashNumber "1234567890") url now) := by
      simp [buildProfile, h2, bind, Except.bind, pure, Except.pure]
    constructor
    · simp [buildProfiles, b1, b2, b3, synthesize]
    · simp [buildProfiles, b1, b2, b3]

/-! ## Claim C8 -/

/-- C8.  For every record batch and destination path, a format name whose
lowercasing is outside the closed supported set is rejected with the
unsupported-format error carrying the requested name.  The membership
test is the first thing `export_profiles` does: an `error` result carries
no filesystem effect, so no directory is created and no file written or
modified. -/
theorem C8_unsupported_format_gate (records : List Rec) (path fmt : String)
    (h : pyLower fmt ∉ SUPPORTED_FORMATS) :
    exportProfiles records path fmt = .error (.unsupportedFormat fmt) := by
  unfold exportProfiles
  rw [if_pos h]

/-- C8, witness: exporting with format `"pdf"` fails with the
unsupported-format error and produces no filesystem effect. -/
theorem C8_unsupported_format_gate_witness :
    exportProfiles [recA] "data/out.pdf" "pdf"
      = .error (.unsupportedFormat "pdf") :=
  C8_unsupported_format_gate [recA] "data/out.pdf" "pdf" (by decide)

/-! ## Claim C9 -/

/-- C9.  Exporting with format `excel` writes to a destination rewritten
to the `.xlsx` extension whenever the path's extension (case-folded) is
not already `.xlsx`: exporting to `out.txt` produces the parent-directory
check and the workbook write at `out.xlsx`, not `out.txt`; a path whose
extension is already `.xlsx` is used unchanged; in general the rewritten
destination is `with_suffix(".xlsx")` of the given path. -/
theorem C9_excel_extension :
    (∀ records : List Rec,
        exportProfiles records "out.txt" "excel"
          = .ok [.ensureParentDir "out.xlsx", .writeXlsx "out.xlsx" (exportExcelRows records)])
    ∧ (∀ (records : List Rec) (path : String), pyLower (pathSuffix path) = ".xlsx" →
        exportProfiles records path "excel"
          = .ok [.ensureParentDir path, .writeXlsx path (exportExcelRows records)])
    ∧ (∀ (records : List Rec) (path : String), pyLower (pathSuffix path) ≠ ".xlsx" →
        exportProfiles records path "excel"
          = .ok [.ensureParentDir (withSuffix path ".xlsx"),
                 .writeXlsx (withSuffix path ".xlsx") (exportExcelRows records)]) := by
  refine ⟨fun records => rfl, ?_, ?_⟩ <;>
    (intro records path h
     unfold exportProfiles
     rw [if_neg (by decide), if_neg (by decide), if_neg (by decide), if_neg (by decide),
       if_neg (by decide), if_pos (by decide)])
  · rw [if_neg (fun hc => hc h)]
  · rw [if_pos h]

/-- C9, witness: a destination already carrying the `.xlsx` extension is
left unchanged. -/
theorem C9_excel_extension_witness :
    exportProfiles [recB] "data/out.xlsx" "excel"
      = .ok [.ensureParentDir "data/out.xlsx",
             .writeXlsx "data/out.xlsx" (exportExcelRows [recB])] :=
  C9_excel_extension.2.1 [recB] "data/out.xlsx" (by decide)

/-! ## Claim C10 -/

/-- C10.  Format dispatch is case-insensitive: two format names with the
same lowercasing yield the same dispatch outcome (identical effects on
success, failure together on rejection — only the echoed name in the
error message differs, which `toOption` quotients away); `"JSON"` and
`"Excel"` are dispatched exactly as `"json"` and `"excel"`; the
unsupported-format decision is taken on the lowercased name; and the CLI
driver lowercases the explicit or configured format before its own
support check. -/
theorem C10_case_insensitive_dispatch :
    (∀ (records : List Rec) (path f g : String), pyLower f = pyLower g →
        (exportProfiles records path f).toOption = (exportProfiles records path g).toOption)
    ∧ (∀ (records : List Rec) (path : String),
        exportProfiles records path "JSON" = exportProfiles records path "json")
    ∧ (∀ (records : List Rec) (path : String),
        exportProfiles records path "Excel" = exportProfiles records path "excel")
    ∧ (∀ (records : List Rec) (path fmt : String),
        (∃ m, exportProfiles records path fmt = .error (.unsupportedFormat m))
          ↔ pyLower fmt ∉ SUPPORTED_FORMATS)
    ∧ (∀ (argFormat : Option String) (settingsDefault : String),
        runnerOutputFormat argFormat settingsDefault
          = pyLower (argFormat.getD settingsDefault)
        ∧ ((∃ f, runnerFormatGate argFormat settingsDefault = .ok f)
            ↔ pyLower (argFormat.getD settingsDefault) ∈ SUPPORTED_FORMATS)) := by
  have hdisp : ∀ (records : List Rec) (path f : String), pyLower f ∈ SUPPORTED_FORMATS →
      ∃ effs, exportProfiles records path f = .ok effs := by
    intro records path f hf
    unfold exportProfiles
    rw [if_neg (not_not_intro hf)]
    have hcases : pyLower f = "json" ∨ pyLower f = "csv" ∨ pyLower f = "xml"
        ∨ pyLower f = "html" ∨ pyLower f = "excel" := by
      simpa [SUPPORTED_FORMATS] using hf
    rcases hcases with h | h | h | h | h <;> rw [h] <;> exact ⟨_, rfl⟩
  constructor
  · intro records path f g hfg
    by_cases hf : pyLower f ∈ SUPPORTED_FORMATS
    · obtain ⟨e₁, h₁⟩ := hdisp records path f hf
      obtain ⟨e₂, h₂⟩ := hdisp records path g (hfg ▸ hf)
      have : Except.ok (ε := ExportError) e₁ = .ok e₂ := by
        rw [← h₁, ← h₂]
        simp only [exportProfiles]
        rw [hfg]
        have hgS : ¬ (pyLower g ∉ SUPPORTED_FORMATS) := not_not_intro (hfg ▸ hf)
        rw [if_neg hgS]
        rw [if_neg hgS]
      rw [h₁, h₂]
      cases this
      rfl
    · have hg : pyLower g ∉ SUPPORTED_FORMATS := hfg ▸ hf
      rw [show exportProfiles records path f = .error (.unsupportedFormat f) from by
            unfold exportProfiles; rw [if_pos hf],
          show exportProfiles records path g = .error (.unsupportedFormat g) from by
            unfold exportProfiles; rw [if_pos hg]]
      rfl
  refine ⟨fun records path => rfl, fun records path => rfl, ?_, ?_⟩
  · intro records path fmt
    constructor
    · rintro ⟨m, hm⟩ hmem
      obtain ⟨effs, heff⟩ := hdisp records path fmt hmem
      rw [heff] at hm
      cases hm
    · intro hmem
      refine ⟨fmt, ?_⟩
      unfold exportProfiles
      rw [if_pos hmem]
  · intro argFormat settingsDefault
    cases argFormat with
    | none =>
        refine ⟨rfl, ?_⟩
        unfold runnerFormatGate runnerOutputFormat
        by_cases hm : pyLower settingsDefault ∈ SUPPORTED_FORMATS
        · rw [if_neg (not_not_intro hm)]
          simp [Option.getD, hm]
        · rw [if_pos hm]
          simp [Option.getD, hm]
    | some f =>
        refine ⟨rfl, ?_⟩
        unfold runnerFormatGate runnerOutputFormat
        by_cases hm : pyLower f ∈ SUPPORTED_FORMATS
        · rw [if_neg (not_not_intro hm)]
          simp [Option.getD, hm]
        · rw [if_pos hm]
          simp [Option.getD, hm]

/-- C10, witness: `"XML"` and `"xml"` share a lowercasing and therefore
dispatch to the same outcome on a concrete batch. -/
theorem C10_case_insensitive_dispatch_witness :
    (exportProfiles [recA] "o.xml" "XML").toOption
      = (exportProfiles [recA] "o.xml" "xml").toOption :=
  C10_case_insensitive_dispatch.1 [recA] "o.xml" "XML" "xml" (by decide)

end WhatsAppScraper
